import Mathlib

/-!
Verification of the per-country aggregation pipeline of the
Global Mental Health Indicators 2020 dashboard (`app.py`).

The embedding models the callback `update_dashboard` and its helper
`render_image_pictograph`. Dataframes become lists of records; the pandas
operations used by the code (boolean-mask filtering, `str.strip`/`str.lower`,
`value_counts(normalize=True)`, `mean`) become the corresponding list
operations; Python's `round` (round-half-to-even) is modelled on ℚ.
-/

namespace Dashboard

/-- A row of `world_health_indicators.csv` (`health_df` in `app.py`):
country, year and health expenditure (`health_exp`). -/
structure ExpenditureRecord where
  country : String
  year : Int
  health_exp : ℚ
deriving DecidableEq, Repr

/-- A row of `mental_health_survey_2020.csv` (`occ_data_full` in `app.py`),
restricted to the columns the callback reads: `Country`, `Occupation`,
`Coping_Struggles`, `Mental_Health_History`. -/
structure SurveyRecord where
  country : String
  occupation : String
  coping_struggles : String
  mental_health_history : String
deriving DecidableEq, Repr

/-- pandas `.str.strip()`: drop leading and trailing whitespace, modelled on
the character list of the string. -/
def pyStrip (s : String) : String :=
  ⟨((s.data.dropWhile (fun c => c.isWhitespace)).reverse.dropWhile
      (fun c => c.isWhitespace)).reverse⟩

/-- pandas `.str.lower()`: lowercase every character. -/
def pyLower (s : String) : String := ⟨s.data.map Char.toLower⟩

/-- The flag normalisation the code applies to the yes/no survey columns:
`.str.strip().str.lower() == "yes"`. -/
def normYes (s : String) : Bool := pyLower (pyStrip s) == "yes"

/-- The selection resolver of `update_dashboard` (app.py lines 110-117).
`mapTriggered` models `ctx.triggered and ctx.triggered[0]["prop_id"].startswith("choropleth-map")`;
`clickData` is `None` or the hovertext string carried by `click_data["points"][0]`
(a non-`None` payload is truthy in Python even when its hovertext is empty);
`dropdown_value` is the dropdown's value, where Python truthiness makes both
`None` and the empty string fall through to the default. -/
def resolveCountry (mapTriggered : Bool) (clickData dropdown_value : Option String) : String :=
  if mapTriggered && clickData.isSome then
    clickData.getD "United States"
  else if dropdown_value.getD "" ≠ "" then
    dropdown_value.getD ""
  else
    "United States"

/-- The line-chart data (app.py lines 120-127):
`health_df[health_df["country"] == country]` projected to `(year, health_exp)`
pairs in dataframe row order — the code applies no sorting and `px.line`
consumes rows in order. -/
def expSeries (country : String) (health : List ExpenditureRecord) : List (Int × ℚ) :=
  (health.filter (fun r => r.country == country)).map (fun r => (r.year, r.health_exp))

/-- The histogram filter (app.py lines 136-139): country match and a
mental-health history normalising to `"yes"`. -/
def occFiltered (country : String) (survey : List SurveyRecord) : List SurveyRecord :=
  survey.filter (fun r => r.country == country && normYes r.mental_health_history)

/-- `value_counts(normalize=True).mul(100)` over a column of occupation
labels (app.py line 142): each distinct label with its percentage share,
sorted by descending share as pandas' `value_counts` does. -/
def valueCountsPct (occs : List String) : List (String × ℚ) :=
  (occs.dedup.map (fun o => (o, ((occs.count o : ℚ) / (occs.length : ℚ)) * 100))).mergeSort
    (fun a b => decide (b.2 ≤ a.2))

/-- The fixed five-category fallback frame (app.py lines 144-148). -/
def fallbackOcc : List (String × ℚ) :=
  [("Housewife", 0), ("Student", 0), ("Business", 0), ("Corporate", 0), ("Others", 0)]

/-- The occupation-distribution data `occ_counts` (app.py lines 136-148). -/
def occCounts (country : String) (survey : List SurveyRecord) : List (String × ℚ) :=
  let occ_data := occFiltered country survey
  if occ_data.isEmpty then fallbackOcc
  else valueCountsPct (occ_data.map (fun r => r.occupation))

/-- Python 3's `round` to an integer, modelled on ℚ: round-half-to-even.
A rational lies exactly halfway between two integers iff its reduced
denominator is 2; there the even neighbour is chosen, and away from ties
`⌊q + 1/2⌋` is rounding to nearest. -/
def pyRound (q : ℚ) : Int :=
  if q.den = 2 then (if 2 ∣ ⌊q⌋ then ⌊q⌋ else ⌊q⌋ + 1) else ⌊q + 1 / 2⌋

/-- Number of rows whose given flag column normalises to `"yes"` — the
numerator of the boolean-mask `.mean()` in app.py lines 170-173. -/
def yesCount (flag : SurveyRecord → String) (rows : List SurveyRecord) : Nat :=
  (rows.filter (fun r => normYes (flag r))).length

/-- The four pictograph scalars of one interaction. -/
structure RateResult where
  coping_pct : ℚ
  history_pct : ℚ
  coping_rate : Int
  history_rate : Int
deriving DecidableEq, Repr

/-- The pictograph computation (app.py lines 167-180): filter the survey by
country only; when non-empty, each percentage is the fraction of rows whose
flag normalises to `"yes"` times 100 and each rate is `round(pct / 10)`;
when empty, the fixed neutral defaults. -/
def rateStats (country : String) (survey : List SurveyRecord) : RateResult :=
  let filtered_survey := survey.filter (fun r => r.country == country)
  if filtered_survey.isEmpty then
    { coping_pct := 50, history_pct := 50, coping_rate := 5, history_rate := 5 }
  else
    let n : ℚ := (filtered_survey.length : ℚ)
    let coping_pct := ((yesCount (fun r => r.coping_struggles) filtered_survey : ℚ) / n) * 100
    let history_pct := ((yesCount (fun r => r.mental_health_history) filtered_survey : ℚ) / n) * 100
    { coping_pct := coping_pct, history_pct := history_pct,
      coping_rate := pyRound (coping_pct / 10), history_rate := pyRound (history_pct / 10) }

/-- The output of `render_image_pictograph` (app.py lines 55-66): the label
text, the backing percentage, and the ten icon image sources in order. -/
structure Pictograph where
  icons : List String
  label : String
  percentage : ℚ
deriving DecidableEq, Repr

/-- `render_image_pictograph` (app.py lines 55-66): ten icons, icon `i`
uses `filled_src` iff `i < count`. -/
def render_image_pictograph (count : Int) (filled_src unfilled_src label_text : String)
    (percentage : ℚ) : Pictograph :=
  { icons := (List.range 10).map (fun i => if (i : Int) < count then filled_src else unfilled_src),
    label := label_text, percentage := percentage }

/-- The five callback outputs of `update_dashboard` in order: line-chart data,
histogram data, the two pictographs, and the dropdown value written back. -/
structure DashOutput where
  line_chart : List (Int × ℚ)
  histogram : List (String × ℚ)
  coping_pictograph : Pictograph
  history_pictograph : Pictograph
  dropdown_value : String
deriving DecidableEq, Repr

/-- The callback `update_dashboard` (app.py lines 110-200). -/
def update_dashboard (mapTriggered : Bool) (click_data dropdown_value : Option String)
    (health : List ExpenditureRecord) (survey : List SurveyRecord) : DashOutput :=
  let country := resolveCountry mapTriggered click_data dropdown_value
  let stats := rateStats country survey
  { line_chart := expSeries country health,
    histogram := occCounts country survey,
    coping_pictograph := render_image_pictograph stats.coping_rate
      "/assets/red.png" "/assets/white.png"
      (toString stats.coping_rate ++ " out of 10 People in " ++ country ++
        " Struggle with Coping as of 2020")
      stats.coping_pct,
    history_pictograph := render_image_pictograph stats.history_rate
      "/assets/red.png" "/assets/white.png"
      (toString stats.history_rate ++ " out of 10 People in " ++ country ++
        " had a previous history of mental health disorders as of 2020")
      stats.history_pct,
    dropdown_value := country }

/-! ## Theorems -/

/-- C1 counterexample: when the most recent trigger is the map click and the
payload carries an empty country name, the code still uses the empty name —
it does not fall back to the dropdown value "Japan" as the claim requires. -/
theorem resolveCountry_empty_click_counterexample :
    resolveCountry true (some "") (some "Japan") = "" ∧
    resolveCountry true (some "") (some "Japan") ≠ "Japan" := by
  constructor <;> decide

/-- C1 (amended): the resolver always produces exactly one country string:
the click payload's country name whenever the most recent trigger is the map
click and a payload is present (even when the carried name is empty);
otherwise the dropdown value when it is present and non-empty; otherwise the
fixed fallback "United States". -/
theorem resolveCountry_spec (s v : String) (cd dv : Option String) (hv : v ≠ "") :
    resolveCountry true (some s) dv = s ∧
    resolveCountry false cd (some v) = v ∧
    resolveCountry true none (some v) = v ∧
    resolveCountry false cd none = "United States" ∧
    resolveCountry false cd (some "") = "United States" ∧
    resolveCountry true none none = "United States" ∧
    resolveCountry true none (some "") = "United States" := by
  simp [resolveCountry, hv]

/-- C1 witness: the resolver cases at concrete inputs. -/
theorem resolveCountry_spec_witness :
    resolveCountry true (some "India") (some "France") = "India" :=
  (resolveCountry_spec "India" "Japan" none (some "France") (by decide)).1

/-- An expenditure table whose rows for country "X" occur in source order
2015, 2017, 2016 — the spec's own example years. -/
def expTableC2 : List ExpenditureRecord :=
  [⟨"X", 2015, 1⟩, ⟨"X", 2017, 2⟩, ⟨"X", 2016, 3⟩]

/-- C2 counterexample: for source rows carrying years [2015, 2017, 2016], the
code returns the series in source order [(2015,1),(2017,2),(2016,3)] — it
never sorts, so the claimed ascending order [(2015,_),(2016,_),(2017,_)]
fails. -/
theorem expSeries_not_sorted_counterexample :
    expSeries "X" expTableC2 = [(2015, 1), (2017, 2), (2016, 3)] ∧
    expSeries "X" expTableC2 ≠ [(2015, 1), (2016, 3), (2017, 2)] := by
  constructor <;> decide

/-- C2 (amended): the expenditure series consists exactly of the rows whose
country equals the resolved country, projected to (year, expenditure) pairs
in source-row order (its year column is a sublist of the table's year
column); it is ascending by year only when the source rows already are, e.g.
whenever the whole table is sorted by year. -/
theorem expSeries_source_order (c : String) (health : List ExpenditureRecord)
    (hsorted : (health.map (fun r => r.year)).Pairwise (fun a b => a ≤ b)) :
    List.Sublist ((expSeries c health).map (fun p => p.1)) (health.map (fun r => r.year)) ∧
    (expSeries c health).Pairwise (fun p q => p.1 ≤ q.1) ∧
    (∀ p ∈ expSeries c health, ∃ r ∈ health, r.country = c ∧ p = (r.year, r.health_exp)) := by
  refine ⟨?_, ?_, ?_⟩
  · have h1 : (expSeries c health).map (fun p => p.1) =
        (health.filter (fun r => r.country == c)).map (fun r => r.year) := by
      simp [expSeries, List.map_map]
    rw [h1]
    exact (List.filter_sublist health).map _
  · have h2 : (health.filter (fun r => r.country == c)).Pairwise
        (fun a b => a.year ≤ b.year) :=
      (List.pairwise_map.mp hsorted).sublist (List.filter_sublist health)
    unfold expSeries
    exact List.pairwise_map.mpr h2
  · intro p hp
    unfold expSeries at hp
    obtain ⟨r, hr, hrp⟩ := List.mem_map.mp hp
    have hmem := List.mem_filter.mp hr
    exact ⟨r, hmem.1, by simpa using hmem.2, hrp.symm⟩

/-- C2 witness: on a table already sorted by year, the series is ascending
and is the in-order projection of the matching rows. -/
theorem expSeries_source_order_witness :
    (expSeries "X" [⟨"X", 2015, 1⟩, ⟨"Y", 2016, 2⟩, ⟨"X", 2017, 3⟩]).Pairwise
      (fun p q => p.1 ≤ q.1) :=
  (expSeries_source_order "X" [⟨"X", 2015, 1⟩, ⟨"Y", 2016, 2⟩, ⟨"X", 2017, 3⟩]
    (by decide)).2.1

/-- Summing `a / n * 100` over a list of rationals factors out the scaling. -/
theorem sum_map_div_mul (l : List ℚ) (n : ℚ) :
    (l.map (fun a => a / n * 100)).sum = l.sum / n * 100 := by
  induction l with
  | nil => simp
  | cons a t ih =>
    simp only [List.map_cons, List.sum_cons, ih]
    ring

/-- The percentage shares produced by `valueCountsPct` on a non-empty column
sum to exactly 100. -/
theorem valueCountsPct_sum (occs : List String) (h : occs ≠ []) :
    ((valueCountsPct occs).map (fun p => p.2)).sum = 100 := by
  have hn : (occs.length : ℚ) ≠ 0 :=
    Nat.cast_ne_zero.mpr (fun hlen => h (List.length_eq_zero.mp hlen))
  unfold valueCountsPct
  rw [((List.mergeSort_perm _ _).map (fun p : String × ℚ => p.2)).sum_eq]
  rw [List.map_map]
  have h1 : ((fun p : String × ℚ => p.2) ∘
      fun o => (o, ((occs.count o : ℚ) / (occs.length : ℚ)) * 100))
      = fun o => ((occs.count o : ℚ)) / (occs.length : ℚ) * 100 := rfl
  rw [h1]
  have h2 : (occs.dedup.map fun o => ((occs.count o : ℚ)) / (occs.length : ℚ) * 100)
      = ((occs.dedup.map fun o => ((occs.count o : ℚ))).map
          (fun a => a / (occs.length : ℚ) * 100)) := by
    rw [List.map_map]
    rfl
  rw [h2, sum_map_div_mul]
  have h3 : (occs.dedup.map fun o => ((occs.count o : ℚ))).sum = (occs.length : ℚ) := by
    calc (occs.dedup.map fun o => ((occs.count o : ℚ))).sum
        = ((occs.dedup.map fun o => occs.count o).map (fun k : ℕ => (k : ℚ))).sum := by
          rw [List.map_map]
          rfl
      _ = (((occs.dedup.map fun o => occs.count o).sum : ℕ) : ℚ) :=
          (Nat.cast_list_sum _).symm
      _ = (occs.length : ℚ) := by rw [List.sum_map_count_dedup_eq_length]
  rw [h3, div_self hn, one_mul]

/-- C3: when at least one survey row matches the country with a history flag
normalising to "yes", the per-category percentage shares sum to exactly 100
(the exact-rational form of "100 up to rounding epsilon"); when no row
matches, the output is exactly the five fixed categories each at 0. -/
theorem occCounts_sum_or_fallback (c : String) (survey : List SurveyRecord) :
    (occFiltered c survey ≠ [] → ((occCounts c survey).map (fun p => p.2)).sum = 100) ∧
    (occFiltered c survey = [] → occCounts c survey = fallbackOcc) := by
  constructor
  · intro h
    have hne : (occFiltered c survey).isEmpty = false := by
      simpa [List.isEmpty_iff] using h
    simp only [occCounts, hne, Bool.false_eq_true, if_false]
    exact valueCountsPct_sum _ (by simpa [List.map_eq_nil_iff] using h)
  · intro h
    simp [occCounts, h]

/-- C3 witness: a country with two history-positive rows sums to 100. -/
theorem occCounts_sum_witness :
    ((occCounts "X" [⟨"X", "Student", "Yes", "Yes"⟩, ⟨"X", "Business", "No", "yes "⟩,
      ⟨"Y", "Student", "Yes", "Yes"⟩]).map (fun p => p.2)).sum = 100 :=
  (occCounts_sum_or_fallback "X" [⟨"X", "Student", "Yes", "Yes"⟩,
    ⟨"X", "Business", "No", "yes "⟩, ⟨"Y", "Student", "Yes", "Yes"⟩]).1 (by decide)

/-- C10: when the history-filtered survey set is non-empty, the occupation
categories are emitted ordered by descending percentage share (most frequent
first), as `value_counts` sorts by count descending — not source-row or
alphabetical order. -/
theorem occCounts_sorted_desc (c : String) (survey : List SurveyRecord)
    (h : occFiltered c survey ≠ []) :
    (occCounts c survey).Pairwise (fun p q => q.2 ≤ p.2) := by
  have hne : (occFiltered c survey).isEmpty = false := by
    simpa [List.isEmpty_iff] using h
  simp only [occCounts, hne, Bool.false_eq_true, if_false]
  unfold valueCountsPct
  refine List.Pairwise.imp (fun hab => by simpa using hab)
    (List.sorted_mergeSort ?_ ?_ _)
  · intro a b k hab hbk
    simp only [decide_eq_true_eq] at *
    exact le_trans hbk hab
  · intro a b
    simp only [Bool.or_eq_true, decide_eq_true_eq]
    exact le_total b.2 a.2

/-- C10 witness: a country where "Student" outnumbers "Business" yields a
descending share list. -/
theorem occCounts_sorted_desc_witness :
    (occCounts "X" [⟨"X", "Business", "No", "yes"⟩, ⟨"X", "Student", "No", "yes"⟩,
      ⟨"X", "Student", "No", "yes"⟩]).Pairwise (fun p q => q.2 ≤ p.2) :=
  occCounts_sorted_desc "X" [⟨"X", "Business", "No", "yes"⟩, ⟨"X", "Student", "No", "yes"⟩,
    ⟨"X", "Student", "No", "yes"⟩] (by decide)

/-- C4: for a resolved country with zero matching survey rows, the rate
pictograph values are the fixed neutral defaults: both rates 5 and both
backing percentages 50. -/
theorem rateStats_empty_default (c : String) (survey : List SurveyRecord)
    (h : survey.filter (fun r => r.country == c) = []) :
    rateStats c survey = ⟨50, 50, 5, 5⟩ := by
  simp [rateStats, h]

/-- C4 witness: a country absent from the survey table gets the neutral
defaults. -/
theorem rateStats_empty_default_witness :
    rateStats "Atlantis" [⟨"France", "Student", "Yes", "No"⟩] = ⟨50, 50, 5, 5⟩ :=
  rateStats_empty_default "Atlantis" [⟨"France", "Student", "Yes", "No"⟩] (by decide)

/-- `pyRound` maps [0, 10] into [0, 10]. -/
theorem pyRound_bounds (q : ℚ) (h0 : 0 ≤ q) (h10 : q ≤ 10) :
    0 ≤ pyRound q ∧ pyRound q ≤ 10 := by
  have hfl0 : (0 : ℤ) ≤ ⌊q⌋ := Int.floor_nonneg.mpr h0
  unfold pyRound
  split
  case isTrue htie =>
    have hne : q ≠ 10 := fun he => by
      rw [he] at htie
      exact absurd htie (by norm_num)
    have h9 : ⌊q⌋ < 10 := Int.floor_lt.mpr (by
      push_cast
      exact lt_of_le_of_ne h10 hne)
    split
    · exact ⟨hfl0, by omega⟩
    · exact ⟨by omega, by omega⟩
  case isFalse htie =>
    refine ⟨Int.floor_nonneg.mpr (by linarith), ?_⟩
    have hlt : ⌊q + 1 / 2⌋ < 11 := Int.floor_lt.mpr (by push_cast; linarith)
    omega

/-- A yes-fraction percentage over a non-empty row set lies in [0, 100]. -/
theorem yes_pct_bounds (flag : SurveyRecord → String) (rows : List SurveyRecord)
    (h : rows ≠ []) :
    0 ≤ ((yesCount flag rows : ℚ) / (rows.length : ℚ)) * 100 ∧
    ((yesCount flag rows : ℚ) / (rows.length : ℚ)) * 100 ≤ 100 := by
  have hlen : (0 : ℚ) < (rows.length : ℚ) := by
    exact_mod_cast List.length_pos.mpr h
  have hle : (yesCount flag rows : ℚ) ≤ (rows.length : ℚ) := by
    exact_mod_cast List.length_filter_le _ rows
  constructor
  · exact mul_nonneg (div_nonneg (Nat.cast_nonneg _) hlen.le) (by norm_num)
  · have hone : (yesCount flag rows : ℚ) / (rows.length : ℚ) ≤ 1 :=
      (div_le_one hlen).mpr hle
    linarith

/-- C5: for a country with at least one matching survey row, each rate is
Python's `round` (round-half-to-even, applied consistently to both) of its
percentage divided by 10, and both rates lie in [0, 10] because the backing
percentages lie in [0, 100]. -/
theorem rateStats_round_bounds (c : String) (survey : List SurveyRecord)
    (h : survey.filter (fun r => r.country == c) ≠ []) :
    (rateStats c survey).coping_rate = pyRound ((rateStats c survey).coping_pct / 10) ∧
    (rateStats c survey).history_rate = pyRound ((rateStats c survey).history_pct / 10) ∧
    (0 ≤ (rateStats c survey).coping_pct ∧ (rateStats c survey).coping_pct ≤ 100) ∧
    (0 ≤ (rateStats c survey).history_pct ∧ (rateStats c survey).history_pct ≤ 100) ∧
    (0 ≤ (rateStats c survey).coping_rate ∧ (rateStats c survey).coping_rate ≤ 10) ∧
    (0 ≤ (rateStats c survey).history_rate ∧ (rateStats c survey).history_rate ≤ 10) := by
  have hne : (survey.filter (fun r => r.country == c)).isEmpty = false := by
    simpa [List.isEmpty_iff] using h
  have hcp := yes_pct_bounds (fun r => r.coping_struggles) _ h
  have hhp := yes_pct_bounds (fun r => r.mental_health_history) _ h
  simp only [rateStats, hne, Bool.false_eq_true, if_false]
  exact ⟨trivial, trivial, hcp, hhp,
    pyRound_bounds _ (by linarith [hcp.1]) (by linarith [hcp.2]),
    pyRound_bounds _ (by linarith [hhp.1]) (by linarith [hhp.2])⟩

/-- C5 witness: a country with one matching row has its coping rate in
[0, 10] and equal to the rounded tenth of its percentage. -/
theorem rateStats_round_bounds_witness :
    0 ≤ (rateStats "X" [⟨"X", "Student", "Yes", "No"⟩]).coping_rate ∧
    (rateStats "X" [⟨"X", "Student", "Yes", "No"⟩]).coping_rate ≤ 10 :=
  (rateStats_round_bounds "X" [⟨"X", "Student", "Yes", "No"⟩] (by decide)).2.2.2.2.1

/-- C6: for a country whose only survey row carries "Yes " (trailing space,
mixed case) in both flags, flag matching strips whitespace and case-folds, so
both percentages are 100 and both rates 10. -/
theorem rateStats_whitespace_case (c occ : String) :
    rateStats c [⟨c, occ, "Yes ", "Yes "⟩] = ⟨100, 100, 10, 10⟩ := by
  have hy : normYes "Yes " = true := by decide
  simp only [rateStats, yesCount, hy, List.filter_cons, List.filter_nil,
    beq_self_eq_true, if_true, List.isEmpty_cons, List.length_cons, List.length_nil]
  norm_num [pyRound, RateResult.mk.injEq]

/-- C7: a flag that does not normalise (strip then lowercase) to "yes" is
counted as "not yes" everywhere: `normYes` is false on it, a row with such a
history flag is excluded by the occupation filter, such a row adds nothing to
either yes-count, and a country absent from both tables produces the defined
fallback outputs (neutral rates, fixed zero categories, empty series) rather
than an error. -/
theorem malformed_flags_and_missing_country (s c : String) (r : SurveyRecord)
    (rows survey : List SurveyRecord) (health : List ExpenditureRecord)
    (hs : pyLower (pyStrip s) ≠ "yes")
    (hr : normYes r.mental_health_history = false)
    (hc : normYes r.coping_struggles = false)
    (habsS : ∀ x ∈ survey, x.country ≠ c)
    (habsH : ∀ x ∈ health, x.country ≠ c) :
    normYes s = false ∧
    occFiltered c (r :: survey) = occFiltered c survey ∧
    yesCount (fun x => x.coping_struggles) (r :: rows)
      = yesCount (fun x => x.coping_struggles) rows ∧
    yesCount (fun x => x.mental_health_history) (r :: rows)
      = yesCount (fun x => x.mental_health_history) rows ∧
    rateStats c survey = ⟨50, 50, 5, 5⟩ ∧
    occCounts c survey = fallbackOcc ∧
    expSeries c health = [] := by
  have hfilS : survey.filter (fun x => x.country == c) = [] :=
    List.filter_eq_nil_iff.mpr (fun x hx => by simpa using habsS x hx)
  have hfilO : occFiltered c survey = [] :=
    List.filter_eq_nil_iff.mpr (fun x hx => by simp [habsS x hx])
  have hfilH : health.filter (fun x => x.country == c) = [] :=
    List.filter_eq_nil_iff.mpr (fun x hx => by simpa using habsH x hx)
  refine ⟨by simp [normYes, hs], ?_, ?_, ?_, ?_, ?_, ?_⟩
  · simp [occFiltered, hr]
  · simp [yesCount, hc]
  · simp [yesCount, hr]
  · simp [rateStats, hfilS]
  · simp [occCounts, hfilO]
  · simp [expSeries, hfilH]

/-- C7 witness: a malformed flag string is treated as "not yes" at a concrete
input. -/
theorem malformed_flags_witness : normYes "maybe" = false :=
  (malformed_flags_and_missing_country "maybe" "Atlantis"
    ⟨"Atlantis", "Student", "nah", "nah"⟩ [] [⟨"France", "Student", "Yes", "Yes"⟩]
    [⟨"France", 2015, 1⟩] (by decide) (by decide) (by decide) (by decide)
    (by decide)).1

/-- C8: the resolved country is always written back as the dropdown's value
(the callback's fifth output); in particular a map click on "India" with a
stale dropdown value "France" resolves to "India" and sets the dropdown to
"India". -/
theorem dropdown_writeback (mt : Bool) (cd dv : Option String)
    (health : List ExpenditureRecord) (survey : List SurveyRecord) :
    (update_dashboard mt cd dv health survey).dropdown_value = resolveCountry mt cd dv ∧
    (update_dashboard true (some "India") (some "France") health survey).dropdown_value
      = "India" ∧
    resolveCountry true (some "India") (some "France") = "India" :=
  ⟨rfl, rfl, rfl⟩

/-- C9: for an integer count in [0, 10], the pictograph renderer produces
exactly ten icons: the first `count` use the filled source and the remaining
`10 - count` the unfilled source. -/
theorem pictograph_icons (count : Int) (filled unfilled lbl : String) (pct : ℚ)
    (h0 : 0 ≤ count) (h10 : count ≤ 10) :
    (render_image_pictograph count filled unfilled lbl pct).icons
      = List.replicate count.toNat filled ++ List.replicate (10 - count.toNat) unfilled ∧
    (render_image_pictograph count filled unfilled lbl pct).icons.length = 10 := by
  interval_cases count <;> exact ⟨rfl, rfl⟩

/-- C9 witness: seven of ten icons filled at a concrete count. -/
theorem pictograph_icons_witness :
    (render_image_pictograph 7 "/assets/red.png" "/assets/white.png" "lbl" 0).icons
      = List.replicate 7 "/assets/red.png" ++ List.replicate 3 "/assets/white.png" :=
  (pictograph_icons 7 "/assets/red.png" "/assets/white.png" "lbl" 0
    (by decide) (by decide)).1

end Dashboard
